import Mathlib

/-!
Verification development for the TerraCaughta geography-guessing game
(`app1.py`).  The game core — country selection, guess evaluation, the
round state machine and session scoring — is shallowly embedded below.

Embedding conventions:
* Streamlit's `st.session_state` becomes an explicit `SessionState` record;
  each event handler is a pure function `SessionState → SessionState × outcome`,
  where the outcome type records which branch was taken (the source signals
  this via `st.warning` / `st.toast` / return-value-free mutation).
* Network calls (`requests.get`) are modelled by response oracles passed in as
  parameters: `Option`-valued, with `none` standing for any exception raised
  inside the corresponding `try` block (transport error, bad status, parse
  failure).
* `random.choice(filtered_countries)` is modelled by a draw oracle
  `draws : Nat → Country` giving the candidate drawn at each loop iteration.
* Python floats (World-Bank latitude/longitude) are modelled as `ℚ`; the
  source's truthiness test `if not lat or not lon` is exact comparison with 0.
* Python sets of strings are modelled as duplicate-free `List String` with a
  membership-guarded insert (`setAdd`).
-/

/-! ### 1. Configuration (`app1.py` lines 14-20) -/

def MAX_MISTAKES : Nat := 3

/-- `POINT_MAP = {0:10, 1:8, 2:6, 3:4, 4:2}`, read with `.get(i, 0)`:
points awarded for solving at each clue level. -/
def POINT_MAP : Nat → Nat
  | 0 => 10
  | 1 => 8
  | 2 => 6
  | 3 => 4
  | 4 => 2
  | _ => 0

def MAX_RETRIES : Nat := 100

/-! ### 2. Helper functions (`app1.py` lines 22-83) -/

/-- Drop whitespace from both ends of a character list (the character-level
semantics of Python's `str.strip()` / Lean's `String.trim`, re-implemented on
lists so that it reduces in the kernel). -/
def trimChars (l : List Char) : List Char :=
  ((l.dropWhile Char.isWhitespace).reverse.dropWhile Char.isWhitespace).reverse

/-- `normalize_text`: `str(text).lower().strip()` — removes casing and strips
surrounding whitespace (ASCII case folding). -/
def normalize_text (text : String) : String :=
  String.mk (trimChars (text.toList.map Char.toLower))

/-- `Levenshtein.distance` from the `Levenshtein` Python package: unit-cost
insertions, deletions and substitutions. -/
def levDistance (a b : String) : Nat :=
  levenshtein Levenshtein.defaultCost a.toList b.toList

/-- The island-sentinel clue text of `get_border_names`. -/
def islandSentinel : String :=
  "It is an island country or surrounded by a single nation."

/-- `get_border_names(border_codes)`: translates border codes into a display
string.  `resp` is the REST-countries response for the codes — a list of
`(common name, population)` pairs, `none` on any fetch/parse failure. -/
def get_border_names (border_codes : List String)
    (resp : Option (List (String × Nat))) : String :=
  if border_codes = ["Island"] then
    islandSentinel
  else
    match resp with
    | none => "Border data unavailable."
    | some border_data =>
      let border_data_sorted := border_data.mergeSort (fun a b => b.2 ≤ a.2)
      let top_borders := (border_data_sorted.map (fun c => c.1)).take 3
      String.intercalate ", " top_borders

/-- Raw World-Bank payload after the parse step of `get_world_bank_clue`
(`float(data['latitude'])`, `float(data['longitude'])`,
`data['incomeLevel']['value']`).  A fetch or parse failure is the `none`
response. -/
structure WBData where
  latitude : ℚ
  longitude : ℚ
  incomeLevel : String
deriving DecidableEq, Repr

/-- The dictionary returned by `get_world_bank_clue`. -/
structure WBClue where
  location : String
  classification : String
  lat : Option ℚ
  lon : Option ℚ
deriving DecidableEq, Repr

/-- `round(q, 2)` on coordinates (used only inside display strings). -/
def round2 (q : ℚ) : ℚ := (round (q * 100) : ℤ) / 100

/-- `get_world_bank_clue(country_iso_code)`: formats coordinates and income
level.  The source's `if not lat or not lon` is Python float truthiness, so a
latitude or longitude equal to `0.0` takes the `Unavailable` branch exactly
like a failed fetch. -/
def get_world_bank_clue (resp : Option WBData) : WBClue :=
  match resp with
  | none => { location := "Unavailable", classification := "Unavailable", lat := none, lon := none }
  | some data =>
    let lat := data.latitude
    let lon := data.longitude
    let income_level := data.incomeLevel
    if lat = 0 ∨ lon = 0 then
      { location := "Unavailable", classification := "Unavailable", lat := none, lon := none }
    else
      let lat_dir := if 0 ≤ lat then "N" else "S"
      let lon_dir := if 0 ≤ lon then "E" else "W"
      let abs_lat := round2 |lat|
      let abs_lon := round2 |lon|
      { location := s!"**{abs_lat}°** {lat_dir}, **{abs_lon}°** {lon_dir}",
        classification := s!"**{income_level}**",
        lat := some lat,
        lon := some lon }

/-! ### 3. Country records and the alias table -/

/-- One record of the (filtered) REST-countries catalog.  `name` is
`name.common`; `cca2 = none` models an absent `cca2` key (the source reads it
with `.get('cca2', 'XX')`); `borders = []` models both an absent `borders` key
and an empty border list (the source treats the two identically);
`capital = []` / `currencies = []` model the absent keys (the source defaults
them to `['Unknown']` / `{'ABC': {}}`; a present-but-empty list would raise an
`IndexError` in Python and is not modelled). -/
structure Country where
  name : String
  cca2 : Option String
  population : Nat
  capital : List String
  currencies : List String
  borders : List String
  flag_png : String
deriving DecidableEq, Repr

/-- `ALTERNATE_NAMES` (`app1.py` lines 222-236): curated alias table from
normalized target name to accepted alternate guesses. -/
def ALTERNATE_NAMES : List (String × List String) :=
  [("netherlands", ["holland", "the netherlands"]),
   ("united kingdom", ["uk", "britain", "england"]),
   ("united states", ["usa", "us", "america"]),
   ("united arab emirates", ["uae", "emirates"]),
   ("russian federation", ["russia"]),
   ("south korea", ["korea", "rok"]),
   ("north korea", ["dprk"]),
   ("syria", ["syrian arab republic"]),
   ("laos", ["lao pdr"]),
   ("vietnam", ["viet nam"]),
   ("iran", ["persia"]),
   ("türkiye", ["turkey"]),
   ("czechia", ["czech republic"])]

/-- `normalized_name in ALTERNATE_NAMES and user_guess in
ALTERNATE_NAMES[normalized_name]` (guess evaluation step (b)). -/
def altMember (k g : String) : Bool :=
  match ALTERNATE_NAMES.lookup k with
  | some alts => decide (g ∈ alts)
  | none => false

/-! ### 4. Session state (`app1.py` lines 205-219, 283-284) -/

/-- `st.session_state`, with every key the game logic touches.  `wb_clue` is
the source's `_wb_clue` temporary; `lat`/`lon` are created on the first
successful round setup (modelled as `Option`). -/
structure SessionState where
  game_started : Bool
  mystery_country : Option Country
  clue_index : Nat
  clues_list : List String
  game_ended : Bool
  guess_input : String
  win : Bool
  current_streak : Nat
  accumulated_points : Nat
  user_name : Option String
  exit_message : Option String
  wb_clue : Option WBClue
  last_streak : Nat
  used_countries : List String
  lat : Option ℚ
  lon : Option ℚ
deriving DecidableEq, Repr

/-- The fresh session created by the `if ... not in st.session_state` block. -/
def initialSessionState : SessionState :=
  { game_started := false
    mystery_country := none
    clue_index := 0
    clues_list := []
    game_ended := false
    guess_input := ""
    win := false
    current_streak := 0
    accumulated_points := 0
    user_name := none
    exit_message := none
    wb_clue := none
    last_streak := 0
    used_countries := []
    lat := none
    lon := none }

/-- `set.add`: Python set insertion on the duplicate-free list model. -/
def setAdd (x : String) (l : List String) : List String :=
  if x ∈ l then l else x :: l

/-! ### 5. Country selection (`app1.py` lines 138-200) -/

/-- `fetch_all_countries()`: fetch the full catalog and keep countries with
population ≥ 1,000,000; any request failure yields the empty list. -/
def fetch_all_countries (resp : Option (List Country)) : List Country :=
  match resp with
  | none => []
  | some all_countries_data =>
    all_countries_data.filter (fun country => 1000000 ≤ country.population)

/-- The border fix-up inside `select_mystery_country` (lines 191-192): a
country with no (or an empty) border list gets the `['Island']` sentinel. -/
def fixBorders (c : Country) : Country :=
  if c.borders = [] then { c with borders := ["Island"] } else c

/-- The `for i in range(MAX_RETRIES)` loop of `select_mystery_country`.
`fuel` counts the remaining iterations (initially `MAX_RETRIES`), `i` the
current iteration index; `wb` is the World-Bank response oracle keyed by ISO
code, `draws` the random-choice oracle.  Returns the selected country paired
with its World-Bank clue (the source stashes the latter in
`st.session_state._wb_clue`), together with the final `used_countries` set
(which the loop may have cleared). -/
def selectLoop (pool : List Country) (wb : String → Option WBData)
    (draws : Nat → Country) :
    Nat → Nat → List String → Option (Country × WBClue) × List String
  | 0, _, used => (none, used)
  | fuel + 1, i, used =>
    -- all possible countries used already? clear the set and keep looping
    let used1 := if pool.length ≤ used.length then [] else used
    let mystery_country := draws i
    let country_name := mystery_country.name
    if country_name ∈ used1 then
      selectLoop pool wb draws fuel (i + 1) used1
    else
      let country_iso_code := mystery_country.cca2.getD "XX"
      let world_bank_clue := get_world_bank_clue (wb country_iso_code)
      if world_bank_clue.lat.isSome ∧ world_bank_clue.lon.isSome then
        (some (fixBorders mystery_country, world_bank_clue), used1)
      else
        selectLoop pool wb draws fuel (i + 1) used1

/-- `select_mystery_country(filtered_countries)`: selects a unique country
with valid World-Bank coordinates, or `none` (the source's `return None` plus
`st.error`) when the pool is empty or the retry budget is exhausted. -/
def select_mystery_country (pool : List Country) (wb : String → Option WBData)
    (draws : Nat → Country) (used : List String) :
    Option (Country × WBClue) × List String :=
  if pool.isEmpty then (none, used)
  else selectLoop pool wb draws MAX_RETRIES 0 used

/-! ### 6. Round setup (`initialize_game`, `app1.py` lines 245-288) -/

/-- Thousands-separated digit grouping of `f"{n:,}"`, on reversed digits. -/
def commaChunks : List Char → List Char
  | c1 :: c2 :: c3 :: c4 :: rest => c1 :: c2 :: c3 :: ',' :: commaChunks (c4 :: rest)
  | l => l
termination_by l => l.length

/-- Python's `f"{n:,}"` for a natural number. -/
def commaSep (n : Nat) : String :=
  String.mk (commaChunks (toString n).toList.reverse).reverse

/-- `initialize_game()` (named `init_game` here; `initialize` is reserved in
this development): fetches data and resets the round portion of the session.
`raw` is the catalog response, `wb` the World-Bank oracle, `bresp` the
border-name response used for clue 4, `draws` the selection draw oracle. -/
def init_game (raw : Option (List Country)) (wb : String → Option WBData)
    (bresp : Option (List (String × Nat))) (draws : Nat → Country)
    (s : SessionState) : SessionState :=
  let s := { s with exit_message := none }
  let filtered_countries := fetch_all_countries raw
  if filtered_countries.isEmpty then
    -- st.error: cannot start, data unavailable
    { s with mystery_country := none }
  else
    match select_mystery_country filtered_countries wb draws s.used_countries with
    | (result, used1) =>
      let s := { s with used_countries := used1 }
      match result with
      | none => { s with mystery_country := none }
      | some (country, world_bank_data) =>
        let s := { s with mystery_country := some country, wb_clue := some world_bank_data }
        let border_names := get_border_names country.borders bresp
        let currency := match country.currencies with
          | [] => "ABC"
          | c :: _ => c
        let capital := match country.capital with
          | [] => "Unknown"
          | c :: _ => c
        let population := commaSep country.population
        let loc := world_bank_data.location
        let cls := world_bank_data.classification
        { s with
          clues_list :=
            [s!"Clue 1 (10 Points Potential): Approximate Location (Textual):\n1) Location: {loc}\n2) Economic Classification: {cls}",
             s!"Clue 2 (8 Points Potential): Population: **{population}**.",
             s!"Clue 3 (6 Points Potential): Currency Code: **{currency}**.",
             s!"Clue 4 (4 Points Points Potential): Neighbors: **{border_names}**.",
             s!"Clue 5 (2 Points Potential): Capital City: **{capital}**."]
          lat := world_bank_data.lat
          lon := world_bank_data.lon
          game_started := true
          clue_index := 0
          game_ended := false
          guess_input := "" }

/-! ### 7. Event handlers (`app1.py` lines 310-366) -/

/-- Which branch `handle_submit_guess` took.  `invalidInput` is the
`st.warning` early return on an empty normalized guess; `errorNoCountry`
models the `TypeError` Python raises when `st.session_state.mystery_country`
is `None` (raised before any state mutation). -/
inductive SubmitOutcome
  | invalidInput
  | won
  | continuing
  | lost
  | errorNoCountry
deriving DecidableEq, Repr

/-- Which branch `handle_next_clue` took.  `errorNoCountry` models the
`TypeError` on a `None` mystery country at line 322; it is raised after the
loss mutations of lines 318-321, which therefore persist. -/
inductive NextClueOutcome
  | continuing
  | lostSkip
  | errorNoCountry
deriving DecidableEq, Repr

/-- `handle_next_clue()`: advance the clue index, or end the round as a
skip-loss when already on the last clue. -/
def handle_next_clue (s : SessionState) : SessionState × NextClueOutcome :=
  let s := { s with guess_input := "" }
  if s.clue_index < s.clues_list.length - 1 then
    ({ s with clue_index := s.clue_index + 1 }, NextClueOutcome.continuing)
  else
    let s := { s with
      game_ended := true
      win := false
      last_streak := s.current_streak
      current_streak := 0 }
    match s.mystery_country with
    | none => (s, NextClueOutcome.errorNoCountry)
    | some mc =>
      ({ s with used_countries := setAdd mc.name s.used_countries },
       NextClueOutcome.lostSkip)

/-- The match logic of `handle_submit_guess` (`app1.py` lines 338-341), the
spec's GuessEvaluator: exact equality, else alias-table membership, else
bounded edit distance with a length floor.  Both arguments are already
normalized. -/
def guessMatches (user_guess normalized_name : String) : Bool :=
  if user_guess = normalized_name then true
  else if altMember normalized_name user_guess then true
  else if 3 < user_guess.length ∧ levDistance user_guess normalized_name ≤ MAX_MISTAKES then true
  else false

/-- `handle_submit_guess()`: evaluate the guess, then either win the round,
reveal the next clue, or lose on the last clue. -/
def handle_submit_guess (s : SessionState) : SessionState × SubmitOutcome :=
  let user_guess := normalize_text s.guess_input
  if user_guess = "" then
    -- st.warning: please enter a guess; no state change
    (s, SubmitOutcome.invalidInput)
  else
    match s.mystery_country with
    | none => (s, SubmitOutcome.errorNoCountry)
    | some mc =>
      let country_name := mc.name
      let normalized_name := normalize_text country_name
      let is_match : Bool := guessMatches user_guess normalized_name
      if is_match then
        let points_awarded := POINT_MAP s.clue_index
        ({ s with
            accumulated_points := s.accumulated_points + points_awarded
            game_ended := true
            win := true
            current_streak := s.current_streak + 1
            used_countries := setAdd country_name s.used_countries
            guess_input := "" }, SubmitOutcome.won)
      else if s.clue_index < s.clues_list.length - 1 then
        ({ s with clue_index := s.clue_index + 1, guess_input := "" },
         SubmitOutcome.continuing)
      else
        ({ s with
            game_ended := true
            win := false
            last_streak := s.current_streak
            current_streak := 0
            used_countries := setAdd country_name s.used_countries
            guess_input := "" }, SubmitOutcome.lost)

/-- The render guard of the in-progress UI (`app1.py` line 401):  the guess
input, Submit Guess button and Next Clue button exist only while
`st.session_state.game_started and not st.session_state.game_ended`. -/
def guessControlsRendered (s : SessionState) : Bool :=
  s.game_started && !s.game_ended

/-- A submit-guess event as deliverable through the UI: the handler runs only
if its widgets are rendered. -/
def dispatch_submit_guess (s : SessionState) : SessionState :=
  if guessControlsRendered s then (handle_submit_guess s).1 else s

/-- A next-clue event as deliverable through the UI. -/
def dispatch_next_clue (s : SessionState) : SessionState :=
  if guessControlsRendered s then (handle_next_clue s).1 else s

/-! ### 8. Case-equation lemmas for the handlers -/

theorem handle_submit_guess_empty (s : SessionState)
    (h : normalize_text s.guess_input = "") :
    handle_submit_guess s = (s, SubmitOutcome.invalidInput) := by
  simp [handle_submit_guess, h]

theorem handle_submit_guess_none (s : SessionState)
    (h1 : normalize_text s.guess_input ≠ "") (h2 : s.mystery_country = none) :
    handle_submit_guess s = (s, SubmitOutcome.errorNoCountry) := by
  simp [handle_submit_guess, h1, h2]

theorem handle_submit_guess_won (s : SessionState) (mc : Country)
    (h1 : normalize_text s.guess_input ≠ "") (h2 : s.mystery_country = some mc)
    (h3 : guessMatches (normalize_text s.guess_input) (normalize_text mc.name) = true) :
    handle_submit_guess s =
      ({ s with
          accumulated_points := s.accumulated_points + POINT_MAP s.clue_index
          game_ended := true
          win := true
          current_streak := s.current_streak + 1
          used_countries := setAdd mc.name s.used_countries
          guess_input := "" }, SubmitOutcome.won) := by
  simp [handle_submit_guess, h1, h2, h3]

theorem handle_submit_guess_continue (s : SessionState) (mc : Country)
    (h1 : normalize_text s.guess_input ≠ "") (h2 : s.mystery_country = some mc)
    (h3 : guessMatches (normalize_text s.guess_input) (normalize_text mc.name) = false)
    (h4 : s.clue_index < s.clues_list.length - 1) :
    handle_submit_guess s =
      ({ s with clue_index := s.clue_index + 1, guess_input := "" },
       SubmitOutcome.continuing) := by
  simp [handle_submit_guess, h1, h2, h3, h4]

theorem handle_submit_guess_lost (s : SessionState) (mc : Country)
    (h1 : normalize_text s.guess_input ≠ "") (h2 : s.mystery_country = some mc)
    (h3 : guessMatches (normalize_text s.guess_input) (normalize_text mc.name) = false)
    (h4 : ¬s.clue_index < s.clues_list.length - 1) :
    handle_submit_guess s =
      ({ s with
          game_ended := true
          win := false
          last_streak := s.current_streak
          current_streak := 0
          used_countries := setAdd mc.name s.used_countries
          guess_input := "" }, SubmitOutcome.lost) := by
  simp [handle_submit_guess, h1, h2, h3, h4]

theorem handle_next_clue_continue (s : SessionState)
    (h : s.clue_index < s.clues_list.length - 1) :
    handle_next_clue s =
      ({ s with clue_index := s.clue_index + 1, guess_input := "" },
       NextClueOutcome.continuing) := by
  simp [handle_next_clue, h]

theorem handle_next_clue_none (s : SessionState)
    (h : ¬s.clue_index < s.clues_list.length - 1) (h2 : s.mystery_country = none) :
    handle_next_clue s =
      ({ s with
          guess_input := ""
          game_ended := true
          win := false
          last_streak := s.current_streak
          current_streak := 0 }, NextClueOutcome.errorNoCountry) := by
  simp [handle_next_clue, h, h2]

theorem handle_next_clue_lost (s : SessionState) (mc : Country)
    (h : ¬s.clue_index < s.clues_list.length - 1) (h2 : s.mystery_country = some mc) :
    handle_next_clue s =
      ({ s with
          guess_input := ""
          game_ended := true
          win := false
          last_streak := s.current_streak
          current_streak := 0
          used_countries := setAdd mc.name s.used_countries },
       NextClueOutcome.lostSkip) := by
  simp [handle_next_clue, h, h2]

/-! ### 9. Alias-table lemmas -/

theorem lookup_mem_iff (g k : String) :
    ∀ (l : List (String × List String)), (l.map Prod.fst).Nodup →
      ((match l.lookup k with
        | some alts => decide (g ∈ alts)
        | none => false) = true ↔ ∃ p ∈ l, p.1 = k ∧ g ∈ p.2) := by
  intro l
  induction l with
  | nil => simp [List.lookup]
  | cons hd tl ih =>
    intro hnd
    rcases hd with ⟨a, b⟩
    simp only [List.map_cons, List.nodup_cons] at hnd
    by_cases hk : k = a
    · subst hk
      simp only [List.lookup, beq_self_eq_true]
      simp only [decide_eq_true_eq]
      constructor
      · intro hg
        exact ⟨(k, b), by simp, rfl, hg⟩
      · rintro ⟨⟨p1, p2⟩, hp, rfl, hg⟩
        rcases List.mem_cons.mp hp with heq | hmem
        · cases heq; exact hg
        · exact absurd (List.mem_map.mpr ⟨(p1, p2), hmem, rfl⟩) hnd.1
    · have hbeq : (k == a) = false := by simp [hk]
      simp only [List.lookup, hbeq]
      rw [ih hnd.2]
      constructor
      · rintro ⟨p, hp, hpk, hg⟩
        exact ⟨p, List.mem_cons_of_mem _ hp, hpk, hg⟩
      · rintro ⟨p, hp, hpk, hg⟩
        rcases List.mem_cons.mp hp with heq | hmem
        · subst heq; simp at hpk; exact absurd hpk.symm hk
        · exact ⟨p, hmem, hpk, hg⟩

theorem alternate_names_keys_nodup : (ALTERNATE_NAMES.map Prod.fst).Nodup := by
  decide

theorem altMember_iff (k g : String) :
    altMember k g = true ↔ ∃ p ∈ ALTERNATE_NAMES, p.1 = k ∧ g ∈ p.2 := by
  unfold altMember
  exact lookup_mem_iff g k ALTERNATE_NAMES alternate_names_keys_nodup

theorem empty_not_alias : ∀ p ∈ ALTERNATE_NAMES, "" ∉ p.2 := by
  decide

/-- The GuessEvaluator decision, characterised: a match is exactly an exact
hit, an alias hit, or a close-enough long guess. -/
theorem guessMatches_iff (g t : String) :
    guessMatches g t = true ↔
      (g = t ∨ (∃ p ∈ ALTERNATE_NAMES, p.1 = t ∧ g ∈ p.2)
        ∨ (3 < g.length ∧ levDistance g t ≤ 3)) := by
  unfold guessMatches
  split_ifs with h1 h2 h3
  · simp [h1]
  · simp only [true_iff]
    exact Or.inr (Or.inl ((altMember_iff t g).mp h2))
  · simp only [true_iff]
    exact Or.inr (Or.inr h3)
  · simp only [false_iff]
    rintro (h | h | h)
    · exact h1 h
    · exact h2 ((altMember_iff t g).mpr h)
    · exact h3 h

/-! ### 10. Selection-loop lemmas -/

theorem fixBorders_name (c : Country) : (fixBorders c).name = c.name := by
  unfold fixBorders; split <;> rfl

theorem fixBorders_cca2 (c : Country) : (fixBorders c).cca2 = c.cca2 := by
  unfold fixBorders; split <;> rfl

theorem fixBorders_borders_ne_nil (c : Country) : (fixBorders c).borders ≠ [] := by
  unfold fixBorders
  split
  · simp
  · assumption

theorem fixBorders_of_nil (c : Country) (h : c.borders = []) :
    (fixBorders c).borders = ["Island"] := by
  simp [fixBorders, h]

/-- Anatomy of a successful selection: the returned country is some drawn
candidate (borders fixed up), its World-Bank clue resolved to concrete
coordinates, and its name was not in the used set — unless the used set
already covered the whole pool, the reshuffle case. -/
theorem selectLoop_some (pool : List Country) (wb : String → Option WBData)
    (draws : Nat → Country) :
    ∀ fuel i used c cl u2,
      selectLoop pool wb draws fuel i used = (some (c, cl), u2) →
      (∃ j, c = fixBorders (draws j)
         ∧ cl = get_world_bank_clue (wb ((draws j).cca2.getD "XX"))
         ∧ cl.lat.isSome = true ∧ cl.lon.isSome = true)
      ∧ (c.name ∉ used ∨ pool.length ≤ used.length) := by
  intro fuel
  induction fuel with
  | zero =>
    intro i used c cl u2 h
    simp [selectLoop] at h
  | succ n ih =>
    intro i used c cl u2 h
    simp only [selectLoop] at h
    by_cases hcov : pool.length ≤ used.length
    · rw [if_pos hcov] at h
      simp only [List.not_mem_nil, if_false] at h
      by_cases hres : (get_world_bank_clue (wb ((draws i).cca2.getD "XX"))).lat.isSome = true
          ∧ (get_world_bank_clue (wb ((draws i).cca2.getD "XX"))).lon.isSome = true
      · rw [if_pos hres] at h
        simp only [Prod.mk.injEq, Option.some.injEq] at h
        refine ⟨⟨i, h.1.1.symm, h.1.2.symm, ?_, ?_⟩, Or.inr hcov⟩
        · rw [← h.1.2]; exact hres.1
        · rw [← h.1.2]; exact hres.2
      · rw [if_neg hres] at h
        exact ⟨(ih (i + 1) [] c cl u2 h).1, Or.inr hcov⟩
    · rw [if_neg hcov] at h
      by_cases hmem : (draws i).name ∈ used
      · rw [if_pos hmem] at h
        exact ih (i + 1) used c cl u2 h
      · rw [if_neg hmem] at h
        by_cases hres : (get_world_bank_clue (wb ((draws i).cca2.getD "XX"))).lat.isSome = true
            ∧ (get_world_bank_clue (wb ((draws i).cca2.getD "XX"))).lon.isSome = true
        · rw [if_pos hres] at h
          simp only [Prod.mk.injEq, Option.some.injEq] at h
          refine ⟨⟨i, h.1.1.symm, h.1.2.symm, ?_, ?_⟩, Or.inl ?_⟩
          · rw [← h.1.2]; exact hres.1
          · rw [← h.1.2]; exact hres.2
          · rw [← h.1.1, fixBorders_name]; exact hmem
        · rw [if_neg hres] at h
          exact ih (i + 1) used c cl u2 h

/-- When no drawn candidate ever resolves coordinates, the loop exhausts its
retries and produces no country. -/
theorem selectLoop_fail (pool : List Country) (wb : String → Option WBData)
    (draws : Nat → Country)
    (hfail : ∀ j, ¬((get_world_bank_clue (wb ((draws j).cca2.getD "XX"))).lat.isSome = true
        ∧ (get_world_bank_clue (wb ((draws j).cca2.getD "XX"))).lon.isSome = true)) :
    ∀ fuel i used, (selectLoop pool wb draws fuel i used).1 = none := by
  intro fuel
  induction fuel with
  | zero => intro i used; simp [selectLoop]
  | succ n ih =>
    intro i used
    simp only [selectLoop]
    by_cases hcov : pool.length ≤ used.length
    · rw [if_pos hcov]
      simp only [List.not_mem_nil, if_false]
      rw [if_neg (hfail i)]
      exact ih (i + 1) []
    · rw [if_neg hcov]
      by_cases hmem : (draws i).name ∈ used
      · rw [if_pos hmem]; exact ih (i + 1) used
      · rw [if_neg hmem]
        rw [if_neg (hfail i)]
        exact ih (i + 1) used

/-- When additionally the used set does not yet cover the pool, the failing
loop also leaves the used set untouched. -/
theorem selectLoop_fail_keep (pool : List Country) (wb : String → Option WBData)
    (draws : Nat → Country)
    (hfail : ∀ j, ¬((get_world_bank_clue (wb ((draws j).cca2.getD "XX"))).lat.isSome = true
        ∧ (get_world_bank_clue (wb ((draws j).cca2.getD "XX"))).lon.isSome = true)) :
    ∀ fuel i used, used.length < pool.length →
      selectLoop pool wb draws fuel i used = (none, used) := by
  intro fuel
  induction fuel with
  | zero => intro i used _; simp [selectLoop]
  | succ n ih =>
    intro i used hlt
    simp only [selectLoop]
    rw [if_neg (by omega : ¬pool.length ≤ used.length)]
    by_cases hmem : (draws i).name ∈ used
    · rw [if_pos hmem]; exact ih (i + 1) used hlt
    · rw [if_neg hmem]
      rw [if_neg (hfail i)]
      exact ih (i + 1) used hlt

/-- A duplicate-free set of names drawn from a catalog of distinct names
covers the catalog exactly when it is at least as large (the length test the
source uses as its exhaustion check). -/
theorem used_covers_iff (pool : List Country) (used : List String)
    (hnd : used.Nodup) (hsub : ∀ n ∈ used, n ∈ pool.map Country.name)
    (hpool : (pool.map Country.name).Nodup) :
    pool.length ≤ used.length ↔ ∀ c ∈ pool, c.name ∈ used := by
  have hlen : (pool.map Country.name).length = pool.length := List.length_map _ _
  have hsubF : used.toFinset ⊆ (pool.map Country.name).toFinset := by
    intro x hx
    rw [List.mem_toFinset] at hx ⊢
    exact hsub x hx
  have hcard1 : used.toFinset.card = used.length := List.toFinset_card_of_nodup hnd
  have hcard2 : (pool.map Country.name).toFinset.card = pool.length := by
    rw [List.toFinset_card_of_nodup hpool, hlen]
  constructor
  · intro hle c hc
    have heq : (pool.map Country.name).toFinset = used.toFinset :=
      (Finset.eq_of_subset_of_card_le hsubF (by omega)).symm
    have hmem : c.name ∈ (pool.map Country.name).toFinset := by
      rw [List.mem_toFinset, List.mem_map]
      exact ⟨c, hc, rfl⟩
    rw [heq, List.mem_toFinset] at hmem
    exact hmem
  · intro hall
    have hsupF : (pool.map Country.name).toFinset ⊆ used.toFinset := by
      intro x hx
      rw [List.mem_toFinset] at hx ⊢
      rcases List.mem_map.mp hx with ⟨c, hc, rfl⟩
      exact hall c hc
    have := Finset.card_le_card hsupF
    have hle2 := List.toFinset_card_le used
    omega

/-! ### 11. Concrete fixtures (used by witnesses and counterexamples) -/

def franceC : Country :=
  { name := "France", cca2 := some "FR", population := 68000000,
    capital := ["Paris"], currencies := ["EUR"], borders := ["BEL", "DEU"],
    flag_png := "fr.png" }

def madagascarC : Country :=
  { name := "Madagascar", cca2 := some "MG", population := 28000000,
    capital := ["Antananarivo"], currencies := ["MGA"], borders := [],
    flag_png := "mg.png" }

/-- An in-progress round against France with the given guess typed in. -/
def midRound (g : String) : SessionState :=
  { initialSessionState with
      game_started := true
      mystery_country := some franceC
      clues_list := ["c1", "c2", "c3", "c4", "c5"]
      guess_input := g
      current_streak := 2
      accumulated_points := 14 }

/-- A round already won (terminal), with the winning guess still in the
input field — the shape a direct handler call would see after the end
screen is up. -/
def wonRound : SessionState :=
  { midRound "France" with game_ended := true, win := true }

/-! ### 12. The claims -/

/-- C7: a guess whose text normalizes to the empty string causes no state
transition at all — `handle_submit_guess` returns the state unchanged (in
particular outcome, clue index, streaks, points and the used set are
untouched) and signals invalid input (`st.warning`) instead of counting a
wrong guess. -/
theorem empty_guess_no_transition (s : SessionState)
    (h : normalize_text s.guess_input = "") :
    handle_submit_guess s = (s, SubmitOutcome.invalidInput) :=
  handle_submit_guess_empty s h

theorem empty_guess_no_transition_witness :
    normalize_text (midRound "   ").guess_input = ""
    ∧ handle_submit_guess (midRound "   ") = (midRound "   ", SubmitOutcome.invalidInput) :=
  ⟨by decide, empty_guess_no_transition (midRound "   ") (by decide)⟩

/-- C4 counterexample: terminal states are not sticky at the handler level.
`wonRound` is a finished (Won) round, yet a further `handle_submit_guess`
call is not a no-op: it changes session state (here it re-awards points and
re-increments the streak), and it does not signal any invalid-transition
condition. -/
theorem terminal_not_sticky_cex :
    wonRound.game_ended = true ∧ wonRound.win = true
    ∧ (handle_submit_guess wonRound).1.accumulated_points ≠ wonRound.accumulated_points
    ∧ (handle_submit_guess wonRound).1.current_streak = wonRound.current_streak + 1
    ∧ (handle_submit_guess wonRound).2 = SubmitOutcome.won := by
  refine ⟨rfl, rfl, ?_, ?_, ?_⟩ <;> decide

/-- C4 (amended): stickiness of terminal round states is enforced by the UI
layer, not by the handlers.  The guess input, Submit Guess and Next Clue
widgets are rendered only while `game_started and not game_ended`
(`app1.py` line 401), so once a round is Won or Lost no submit/skip event can
reach the handlers, and the UI-dispatched operations are no-ops until a new
round is started; the raw handlers themselves perform no terminal-state
check and do transition state if invoked directly. -/
theorem terminal_sticky_via_ui_guard (s : SessionState) (h : s.game_ended = true) :
    guessControlsRendered s = false
    ∧ dispatch_submit_guess s = s
    ∧ dispatch_next_clue s = s := by
  have hg : guessControlsRendered s = false := by
    simp [guessControlsRendered, h]
  refine ⟨hg, ?_, ?_⟩
  · simp [dispatch_submit_guess, hg]
  · simp [dispatch_next_clue, hg]

theorem terminal_sticky_via_ui_guard_witness :
    wonRound.game_ended = true
    ∧ (guessControlsRendered wonRound = false
        ∧ dispatch_submit_guess wonRound = wonRound
        ∧ dispatch_next_clue wonRound = wonRound) :=
  ⟨rfl, terminal_sticky_via_ui_guard wonRound rfl⟩

/-- C1: for every guess text and target, `handle_submit_guess` declares a
match (outcome Won) exactly when (a) the lowercased, trimmed guess equals the
lowercased, trimmed target name, or (b) the normalized target is a key of the
curated alias table and the normalized guess is in its alias set, or (c) the
normalized guess is longer than 3 characters and its Levenshtein distance to
the normalized target is at most 3; otherwise no match is declared.  (The
target is assumed not to normalize to the empty string — every real country
name satisfies this.) -/
theorem guess_match_characterisation (s : SessionState) (mc : Country)
    (hmc : s.mystery_country = some mc)
    (hname : normalize_text mc.name ≠ "") :
    (handle_submit_guess s).2 = SubmitOutcome.won ↔
      (normalize_text s.guess_input = normalize_text mc.name
        ∨ (∃ p ∈ ALTERNATE_NAMES, p.1 = normalize_text mc.name
            ∧ normalize_text s.guess_input ∈ p.2)
        ∨ (3 < (normalize_text s.guess_input).length
            ∧ levDistance (normalize_text s.guess_input) (normalize_text mc.name) ≤ 3)) := by
  by_cases hempty : normalize_text s.guess_input = ""
  · rw [handle_submit_guess_empty s hempty]
    apply iff_of_false
    · simp
    · rintro (h | ⟨p, hp, _, hg⟩ | ⟨hlen, _⟩)
      · rw [hempty] at h
        exact hname h.symm
      · rw [hempty] at hg
        exact empty_not_alias p hp hg
      · rw [hempty] at hlen
        simp at hlen
  · cases hm : guessMatches (normalize_text s.guess_input) (normalize_text mc.name) with
    | true =>
      rw [handle_submit_guess_won s mc hempty hmc hm]
      exact iff_of_true rfl ((guessMatches_iff _ _).mp hm)
    | false =>
      have hne : (handle_submit_guess s).2 ≠ SubmitOutcome.won := by
        by_cases hidx : s.clue_index < s.clues_list.length - 1
        · rw [handle_submit_guess_continue s mc hempty hmc hm hidx]; simp
        · rw [handle_submit_guess_lost s mc hempty hmc hm hidx]; simp
      apply iff_of_false hne
      intro hor
      have htrue := (guessMatches_iff (normalize_text s.guess_input) (normalize_text mc.name)).mpr hor
      rw [hm] at htrue
      cases htrue

theorem guess_match_characterisation_witness :
    (midRound "  FRANCE ").mystery_country = some franceC
    ∧ normalize_text franceC.name ≠ ""
    ∧ ((handle_submit_guess (midRound "  FRANCE ")).2 = SubmitOutcome.won ↔
        (normalize_text (midRound "  FRANCE ").guess_input = normalize_text franceC.name
          ∨ (∃ p ∈ ALTERNATE_NAMES, p.1 = normalize_text franceC.name
              ∧ normalize_text (midRound "  FRANCE ").guess_input ∈ p.2)
          ∨ (3 < (normalize_text (midRound "  FRANCE ").guess_input).length
              ∧ levDistance (normalize_text (midRound "  FRANCE ").guess_input)
                  (normalize_text franceC.name) ≤ 3))) :=
  ⟨rfl, by decide, guess_match_characterisation (midRound "  FRANCE ") franceC rfl (by decide)⟩

theorem POINT_MAP_eq_table (i : Nat) (hi : i ≤ 4) :
    POINT_MAP i = [10, 8, 6, 4, 2].getD i 0 := by
  interval_cases i <;> rfl

/-- C2: ending an in-progress round at clue index `i ≤ 4`: a winning guess
adds exactly `{0:10, 1:8, 2:6, 3:4, 4:2}[i]` points (so a win at clue index 0
awards exactly 10), increments `current_streak` and leaves `last_streak`
alone; a loss — wrong guess on the last clue, or skipping past the last
clue — copies the pre-loss `current_streak` into `last_streak`, resets
`current_streak` to 0 and leaves the points unchanged. -/
theorem scoring_and_streak_updates (s : SessionState) (hi : s.clue_index ≤ 4) :
    ((handle_submit_guess s).2 = SubmitOutcome.won →
        (handle_submit_guess s).1.accumulated_points =
          s.accumulated_points + [10, 8, 6, 4, 2].getD s.clue_index 0
        ∧ (handle_submit_guess s).1.current_streak = s.current_streak + 1
        ∧ (handle_submit_guess s).1.last_streak = s.last_streak)
    ∧ ((handle_submit_guess s).2 = SubmitOutcome.lost →
        (handle_submit_guess s).1.last_streak = s.current_streak
        ∧ (handle_submit_guess s).1.current_streak = 0
        ∧ (handle_submit_guess s).1.accumulated_points = s.accumulated_points)
    ∧ ((handle_next_clue s).2 = NextClueOutcome.lostSkip →
        (handle_next_clue s).1.last_streak = s.current_streak
        ∧ (handle_next_clue s).1.current_streak = 0
        ∧ (handle_next_clue s).1.accumulated_points = s.accumulated_points) := by
  refine ⟨?_, ?_, ?_⟩
  · intro hwon
    by_cases hempty : normalize_text s.guess_input = ""
    · rw [handle_submit_guess_empty s hempty] at hwon
      cases hwon
    · cases hmc : s.mystery_country with
      | none =>
        rw [handle_submit_guess_none s hempty hmc] at hwon
        cases hwon
      | some mc =>
        cases hm : guessMatches (normalize_text s.guess_input) (normalize_text mc.name) with
        | true =>
          rw [handle_submit_guess_won s mc hempty hmc hm]
          refine ⟨?_, rfl, rfl⟩
          show s.accumulated_points + POINT_MAP s.clue_index =
            s.accumulated_points + [10, 8, 6, 4, 2].getD s.clue_index 0
          rw [POINT_MAP_eq_table s.clue_index hi]
        | false =>
          by_cases hidx : s.clue_index < s.clues_list.length - 1
          · rw [handle_submit_guess_continue s mc hempty hmc hm hidx] at hwon
            cases hwon
          · rw [handle_submit_guess_lost s mc hempty hmc hm hidx] at hwon
            cases hwon
  · intro hlost
    by_cases hempty : normalize_text s.guess_input = ""
    · rw [handle_submit_guess_empty s hempty] at hlost
      cases hlost
    · cases hmc : s.mystery_country with
      | none =>
        rw [handle_submit_guess_none s hempty hmc] at hlost
        cases hlost
      | some mc =>
        cases hm : guessMatches (normalize_text s.guess_input) (normalize_text mc.name) with
        | true =>
          rw [handle_submit_guess_won s mc hempty hmc hm] at hlost
          cases hlost
        | false =>
          by_cases hidx : s.clue_index < s.clues_list.length - 1
          · rw [handle_submit_guess_continue s mc hempty hmc hm hidx] at hlost
            cases hlost
          · rw [handle_submit_guess_lost s mc hempty hmc hm hidx]
            exact ⟨rfl, rfl, rfl⟩
  · intro hskip
    by_cases hidx : s.clue_index < s.clues_list.length - 1
    · rw [handle_next_clue_continue s hidx] at hskip
      cases hskip
    · cases hmc : s.mystery_country with
      | none =>
        rw [handle_next_clue_none s hidx hmc] at hskip
        cases hskip
      | some mc =>
        rw [handle_next_clue_lost s mc hidx hmc]
        exact ⟨rfl, rfl, rfl⟩

theorem scoring_and_streak_updates_witness :
    (midRound "France").clue_index ≤ 4
    ∧ (((handle_submit_guess (midRound "France")).2 = SubmitOutcome.won →
          (handle_submit_guess (midRound "France")).1.accumulated_points =
            (midRound "France").accumulated_points
              + [10, 8, 6, 4, 2].getD (midRound "France").clue_index 0
          ∧ (handle_submit_guess (midRound "France")).1.current_streak =
              (midRound "France").current_streak + 1
          ∧ (handle_submit_guess (midRound "France")).1.last_streak =
              (midRound "France").last_streak)
      ∧ ((handle_submit_guess (midRound "France")).2 = SubmitOutcome.lost →
          (handle_submit_guess (midRound "France")).1.last_streak =
            (midRound "France").current_streak
          ∧ (handle_submit_guess (midRound "France")).1.current_streak = 0
          ∧ (handle_submit_guess (midRound "France")).1.accumulated_points =
              (midRound "France").accumulated_points)
      ∧ ((handle_next_clue (midRound "France")).2 = NextClueOutcome.lostSkip →
          (handle_next_clue (midRound "France")).1.last_streak =
            (midRound "France").current_streak
          ∧ (handle_next_clue (midRound "France")).1.current_streak = 0
          ∧ (handle_next_clue (midRound "France")).1.accumulated_points =
              (midRound "France").accumulated_points)) :=
  ⟨by decide, scoring_and_streak_updates (midRound "France") (by decide)⟩

/-- `handle_submit_guess` either keeps the clue index or advances it by one,
the latter only while below the last clue. -/
theorem submit_clue_index_cases (s : SessionState) :
    (handle_submit_guess s).1.clue_index = s.clue_index
    ∨ ((handle_submit_guess s).1.clue_index = s.clue_index + 1
        ∧ s.clue_index < s.clues_list.length - 1) := by
  by_cases hempty : normalize_text s.guess_input = ""
  · rw [handle_submit_guess_empty s hempty]
    exact Or.inl rfl
  · cases hmc : s.mystery_country with
    | none =>
      rw [handle_submit_guess_none s hempty hmc]
      exact Or.inl rfl
    | some mc =>
      cases hm : guessMatches (normalize_text s.guess_input) (normalize_text mc.name) with
      | true =>
        rw [handle_submit_guess_won s mc hempty hmc hm]
        exact Or.inl rfl
      | false =>
        by_cases hidx : s.clue_index < s.clues_list.length - 1
        · rw [handle_submit_guess_continue s mc hempty hmc hm hidx]
          exact Or.inr ⟨rfl, hidx⟩
        · rw [handle_submit_guess_lost s mc hempty hmc hm hidx]
          exact Or.inl rfl

/-- `handle_next_clue` either keeps the clue index or advances it by one,
the latter only while below the last clue. -/
theorem next_clue_index_cases (s : SessionState) :
    (handle_next_clue s).1.clue_index = s.clue_index
    ∨ ((handle_next_clue s).1.clue_index = s.clue_index + 1
        ∧ s.clue_index < s.clues_list.length - 1) := by
  by_cases hidx : s.clue_index < s.clues_list.length - 1
  · rw [handle_next_clue_continue s hidx]
    exact Or.inr ⟨rfl, hidx⟩
  · cases hmc : s.mystery_country with
    | none =>
      rw [handle_next_clue_none s hidx hmc]
      exact Or.inl rfl
    | some mc =>
      rw [handle_next_clue_lost s mc hidx hmc]
      exact Or.inl rfl

/-- `init_game` either fails (no mystery country) or sets up a fresh round:
clue index 0, exactly five clues, round not ended, game started. -/
theorem init_game_cases (raw : Option (List Country)) (wb : String → Option WBData)
    (bresp : Option (List (String × Nat))) (draws : Nat → Country) (s : SessionState) :
    (init_game raw wb bresp draws s).mystery_country = none
    ∨ ((init_game raw wb bresp draws s).clue_index = 0
        ∧ (init_game raw wb bresp draws s).clues_list.length = 5
        ∧ (init_game raw wb bresp draws s).game_ended = false
        ∧ (init_game raw wb bresp draws s).game_started = true) := by
  simp only [init_game]
  split
  · exact Or.inl rfl
  · rcases hsel : select_mystery_country (fetch_all_countries raw) wb draws s.used_countries
      with ⟨res, u1⟩
    cases res with
    | none => exact Or.inl rfl
    | some p =>
      rcases p with ⟨c0, wbd⟩
      exact Or.inr ⟨rfl, rfl, rfl, rfl⟩

/-- C5: within a round the clue index starts at 0 (round setup also installs
exactly the five clues), never decreases under a guess submission or a skip,
and stays within the bounds `[0, 4]`. -/
theorem clue_index_monotone_bounded (s : SessionState)
    (raw : Option (List Country)) (wb : String → Option WBData)
    (bresp : Option (List (String × Nat))) (draws : Nat → Country) (c : Country)
    (h5 : s.clues_list.length = 5) (hi : s.clue_index ≤ 4) :
    ((init_game raw wb bresp draws s).mystery_country = some c →
        (init_game raw wb bresp draws s).clue_index = 0
        ∧ (init_game raw wb bresp draws s).clues_list.length = 5)
    ∧ s.clue_index ≤ (handle_submit_guess s).1.clue_index
    ∧ (handle_submit_guess s).1.clue_index ≤ 4
    ∧ s.clue_index ≤ (handle_next_clue s).1.clue_index
    ∧ (handle_next_clue s).1.clue_index ≤ 4 := by
  refine ⟨?_, ?_, ?_, ?_, ?_⟩
  · intro hsome
    rcases init_game_cases raw wb bresp draws s with hnone | ⟨h0, hlen, _, _⟩
    · rw [hnone] at hsome
      cases hsome
    · exact ⟨h0, hlen⟩
  · rcases submit_clue_index_cases s with h | ⟨h, _⟩ <;> omega
  · rcases submit_clue_index_cases s with h | ⟨h, hlt⟩
    · omega
    · rw [h5] at hlt
      omega
  · rcases next_clue_index_cases s with h | ⟨h, _⟩ <;> omega
  · rcases next_clue_index_cases s with h | ⟨h, hlt⟩
    · omega
    · rw [h5] at hlt
      omega

theorem clue_index_monotone_bounded_witness :
    (midRound "Spain").clues_list.length = 5
    ∧ (midRound "Spain").clue_index ≤ 4
    ∧ (((init_game (some [franceC]) (fun _ => some ⟨46, 2, "High income"⟩) none
          (fun _ => franceC) (midRound "Spain")).mystery_country = some franceC →
          (init_game (some [franceC]) (fun _ => some ⟨46, 2, "High income"⟩) none
            (fun _ => franceC) (midRound "Spain")).clue_index = 0
          ∧ (init_game (some [franceC]) (fun _ => some ⟨46, 2, "High income"⟩) none
              (fun _ => franceC) (midRound "Spain")).clues_list.length = 5)
      ∧ (midRound "Spain").clue_index ≤ (handle_submit_guess (midRound "Spain")).1.clue_index
      ∧ (handle_submit_guess (midRound "Spain")).1.clue_index ≤ 4
      ∧ (midRound "Spain").clue_index ≤ (handle_next_clue (midRound "Spain")).1.clue_index
      ∧ (handle_next_clue (midRound "Spain")).1.clue_index ≤ 4) :=
  ⟨by decide, by decide,
   clue_index_monotone_bounded (midRound "Spain") (some [franceC])
     (fun _ => some ⟨46, 2, "High income"⟩) none (fun _ => franceC) franceC
     (by decide) (by decide)⟩

/-- C6: a completed round — Won, or Lost by a wrong final guess or by
skipping past the last clue — adds exactly one name to the used-country set,
namely the round's target; a non-completing call leaves the set unchanged,
and a round that never starts (failed setup) adds nothing. -/
theorem completed_round_extends_used_set (s : SessionState) (mc : Country)
    (hmc : s.mystery_country = some mc)
    (hfresh : mc.name ∉ s.used_countries)
    (wb2 : String → Option WBData) (bresp2 : Option (List (String × Nat)))
    (draws2 : Nat → Country) :
    (((handle_submit_guess s).2 = SubmitOutcome.won
        ∨ (handle_submit_guess s).2 = SubmitOutcome.lost) →
        (handle_submit_guess s).1.used_countries.length = s.used_countries.length + 1
        ∧ mc.name ∈ (handle_submit_guess s).1.used_countries
        ∧ ∀ x ∈ (handle_submit_guess s).1.used_countries,
            x ∈ s.used_countries ∨ x = mc.name)
    ∧ (((handle_submit_guess s).2 = SubmitOutcome.continuing
        ∨ (handle_submit_guess s).2 = SubmitOutcome.invalidInput) →
        (handle_submit_guess s).1.used_countries = s.used_countries)
    ∧ ((handle_next_clue s).2 = NextClueOutcome.lostSkip →
        (handle_next_clue s).1.used_countries.length = s.used_countries.length + 1
        ∧ mc.name ∈ (handle_next_clue s).1.used_countries
        ∧ ∀ x ∈ (handle_next_clue s).1.used_countries,
            x ∈ s.used_countries ∨ x = mc.name)
    ∧ ((handle_next_clue s).2 = NextClueOutcome.continuing →
        (handle_next_clue s).1.used_countries = s.used_countries)
    ∧ (init_game none wb2 bresp2 draws2 s).used_countries = s.used_countries := by
  have hadd : (setAdd mc.name s.used_countries).length = s.used_countries.length + 1
      ∧ mc.name ∈ setAdd mc.name s.used_countries
      ∧ ∀ x ∈ setAdd mc.name s.used_countries, x ∈ s.used_countries ∨ x = mc.name := by
    unfold setAdd
    rw [if_neg hfresh]
    refine ⟨List.length_cons _ _, List.mem_cons_self _ _, ?_⟩
    intro x hx
    rcases List.mem_cons.mp hx with h | h
    · exact Or.inr h
    · exact Or.inl h
  refine ⟨?_, ?_, ?_, ?_, ?_⟩
  · intro hdone
    by_cases hempty : normalize_text s.guess_input = ""
    · rw [handle_submit_guess_empty s hempty] at hdone
      rcases hdone with h | h <;> cases h
    · cases hm : guessMatches (normalize_text s.guess_input) (normalize_text mc.name) with
      | true =>
        rw [handle_submit_guess_won s mc hempty hmc hm]
        exact hadd
      | false =>
        by_cases hidx : s.clue_index < s.clues_list.length - 1
        · rw [handle_submit_guess_continue s mc hempty hmc hm hidx] at hdone
          rcases hdone with h | h <;> cases h
        · rw [handle_submit_guess_lost s mc hempty hmc hm hidx]
          exact hadd
  · intro hcont
    by_cases hempty : normalize_text s.guess_input = ""
    · rw [handle_submit_guess_empty s hempty]
    · cases hm : guessMatches (normalize_text s.guess_input) (normalize_text mc.name) with
      | true =>
        rw [handle_submit_guess_won s mc hempty hmc hm] at hcont
        rcases hcont with h | h <;> cases h
      | false =>
        by_cases hidx : s.clue_index < s.clues_list.length - 1
        · rw [handle_submit_guess_continue s mc hempty hmc hm hidx]
        · rw [handle_submit_guess_lost s mc hempty hmc hm hidx] at hcont
          rcases hcont with h | h <;> cases h
  · intro hskip
    by_cases hidx : s.clue_index < s.clues_list.length - 1
    · rw [handle_next_clue_continue s hidx] at hskip
      cases hskip
    · rw [handle_next_clue_lost s mc hidx hmc]
      exact hadd
  · intro hcont
    by_cases hidx : s.clue_index < s.clues_list.length - 1
    · rw [handle_next_clue_continue s hidx]
    · rw [handle_next_clue_lost s mc hidx hmc] at hcont
      cases hcont
  · simp [init_game, fetch_all_countries]

theorem completed_round_extends_used_set_witness :
    (midRound "France").mystery_country = some franceC
    ∧ franceC.name ∉ (midRound "France").used_countries
    ∧ ((((handle_submit_guess (midRound "France")).2 = SubmitOutcome.won
          ∨ (handle_submit_guess (midRound "France")).2 = SubmitOutcome.lost) →
          (handle_submit_guess (midRound "France")).1.used_countries.length =
            (midRound "France").used_countries.length + 1
          ∧ franceC.name ∈ (handle_submit_guess (midRound "France")).1.used_countries
          ∧ ∀ x ∈ (handle_submit_guess (midRound "France")).1.used_countries,
              x ∈ (midRound "France").used_countries ∨ x = franceC.name)
      ∧ (((handle_submit_guess (midRound "France")).2 = SubmitOutcome.continuing
          ∨ (handle_submit_guess (midRound "France")).2 = SubmitOutcome.invalidInput) →
          (handle_submit_guess (midRound "France")).1.used_countries =
            (midRound "France").used_countries)
      ∧ ((handle_next_clue (midRound "France")).2 = NextClueOutcome.lostSkip →
          (handle_next_clue (midRound "France")).1.used_countries.length =
            (midRound "France").used_countries.length + 1
          ∧ franceC.name ∈ (handle_next_clue (midRound "France")).1.used_countries
          ∧ ∀ x ∈ (handle_next_clue (midRound "France")).1.used_countries,
              x ∈ (midRound "France").used_countries ∨ x = franceC.name)
      ∧ ((handle_next_clue (midRound "France")).2 = NextClueOutcome.continuing →
          (handle_next_clue (midRound "France")).1.used_countries =
            (midRound "France").used_countries)
      ∧ (init_game none (fun _ => none) none (fun _ => franceC)
            (midRound "France")).used_countries = (midRound "France").used_countries) :=
  ⟨rfl, by decide,
   completed_round_extends_used_set (midRound "France") franceC rfl (by decide)
     (fun _ => none) none (fun _ => franceC)⟩

/-- Selection-oracle fixtures: a two-country pool, a World-Bank oracle that
resolves Madagascar only, and a draw sequence that always picks Madagascar. -/
def poolW : List Country := [franceC, madagascarC]

def wbW : String → Option WBData :=
  fun iso => if iso = "MG" then some { latitude := -19, longitude := 47, incomeLevel := "Low income" } else none

def drawsW : Nat → Country := fun _ => madagascarC

/-- C3: `select_mystery_country` never returns a country whose name is in the
used set — unless the used set already covers the entire pool (by the
source's length test, which under the session invariants — no duplicate used
names, used names drawn from the pool, distinct pool names — is exactly
"every pool country is used"), in which case the set is cleared and the
country is drawn against the cleared set; and when no candidate ever
resolves coordinates the bounded retry loop gives up and returns no country
instead of looping forever. -/
theorem selector_respects_used_set (pool : List Country)
    (wb : String → Option WBData) (draws : Nat → Country) (used : List String)
    (hdraws : ∀ j, draws j ∈ pool)
    (hnd : used.Nodup)
    (hsub : ∀ n ∈ used, n ∈ pool.map Country.name)
    (hpool : (pool.map Country.name).Nodup) :
    (∀ c cl u2, select_mystery_country pool wb draws used = (some (c, cl), u2) →
        (c.name ∉ used ∨ pool.length ≤ used.length) ∧ ∃ d ∈ pool, c = fixBorders d)
    ∧ (pool.length ≤ used.length ↔ ∀ c ∈ pool, c.name ∈ used)
    ∧ ((∀ j, ¬((get_world_bank_clue (wb ((draws j).cca2.getD "XX"))).lat.isSome = true
          ∧ (get_world_bank_clue (wb ((draws j).cca2.getD "XX"))).lon.isSome = true)) →
        (select_mystery_country pool wb draws used).1 = none) := by
  refine ⟨?_, used_covers_iff pool used hnd hsub hpool, ?_⟩
  · intro c cl u2 hsel
    unfold select_mystery_country at hsel
    split at hsel
    · simp at hsel
    · have h := selectLoop_some pool wb draws MAX_RETRIES 0 used c cl u2 hsel
      refine ⟨h.2, ?_⟩
      rcases h.1 with ⟨j, hc, _, _, _⟩
      exact ⟨draws j, hdraws j, hc⟩
  · intro hfail
    unfold select_mystery_country
    split
    · rfl
    · exact selectLoop_fail pool wb draws hfail MAX_RETRIES 0 used

theorem selector_respects_used_set_witness :
    (∀ j, drawsW j ∈ poolW)
    ∧ (["France"] : List String).Nodup
    ∧ (∀ n ∈ (["France"] : List String), n ∈ poolW.map Country.name)
    ∧ (poolW.map Country.name).Nodup
    ∧ ((∀ c cl u2, select_mystery_country poolW wbW drawsW ["France"] = (some (c, cl), u2) →
          (c.name ∉ ["France"] ∨ poolW.length ≤ (["France"] : List String).length)
          ∧ ∃ d ∈ poolW, c = fixBorders d)
      ∧ (poolW.length ≤ (["France"] : List String).length ↔
          ∀ c ∈ poolW, c.name ∈ (["France"] : List String))
      ∧ ((∀ j, ¬((get_world_bank_clue (wbW ((drawsW j).cca2.getD "XX"))).lat.isSome = true
            ∧ (get_world_bank_clue (wbW ((drawsW j).cca2.getD "XX"))).lon.isSome = true)) →
          (select_mystery_country poolW wbW drawsW ["France"]).1 = none)) :=
  ⟨fun _ => (by decide : madagascarC ∈ poolW), by decide, by decide, by decide,
   selector_respects_used_set poolW wbW drawsW ["France"]
     (fun _ => (by decide : madagascarC ∈ poolW)) (by decide) (by decide) (by decide)⟩

/-- Round setup renders clue 4 from `get_border_names` over the selected
country's border list. -/
theorem init_game_clue4 (raw : Option (List Country)) (wb : String → Option WBData)
    (bresp : Option (List (String × Nat))) (draws : Nat → Country) (s : SessionState) :
    (init_game raw wb bresp draws s).mystery_country = none
    ∨ (∃ c, (init_game raw wb bresp draws s).mystery_country = some c
        ∧ (init_game raw wb bresp draws s).clues_list.get? 3 =
            some ("Clue 4 (4 Points Points Potential): Neighbors: **"
              ++ get_border_names c.borders bresp ++ "**.")) := by
  simp only [init_game]
  split
  · exact Or.inl rfl
  · rcases hsel : select_mystery_country (fetch_all_countries raw) wb draws s.used_countries
      with ⟨res, u1⟩
    cases res with
    | none => exact Or.inl rfl
    | some p =>
      rcases p with ⟨c0, wbd⟩
      exact Or.inr ⟨c0, rfl, rfl⟩

/-- C9: a country whose neighbor list is empty or absent is given the island
sentinel marker by the selector, and its Clue 4 is rendered with the
island-sentinel text — never as an empty string. -/
theorem island_sentinel_rendered (s : SessionState)
    (raw : Option (List Country)) (wb : String → Option WBData)
    (bresp bresp2 : Option (List (String × Nat))) (draws : Nat → Country) (c : Country)
    (hc : (init_game raw wb bresp draws s).mystery_country = some c)
    (hb : c.borders = ["Island"]) :
    (init_game raw wb bresp draws s).clues_list.get? 3 =
      some "Clue 4 (4 Points Points Potential): Neighbors: **It is an island country or surrounded by a single nation.**."
    ∧ (∀ c0 : Country, c0.borders = [] → (fixBorders c0).borders = ["Island"])
    ∧ (∀ pool wb2 draws2 used c2 cl u2,
        select_mystery_country pool wb2 draws2 used = (some (c2, cl), u2) →
        c2.borders ≠ [])
    ∧ get_border_names ["Island"] bresp2 = islandSentinel
    ∧ islandSentinel ≠ "" := by
  refine ⟨?_, fixBorders_of_nil, ?_, ?_, ?_⟩
  · rcases init_game_clue4 raw wb bresp draws s with hnone | ⟨c1, hc1, hclue⟩
    · rw [hnone] at hc
      cases hc
    · rw [hc1] at hc
      injection hc with hc
      subst hc
      rw [hclue, hb]
      rfl
  · intro pool wb2 draws2 used c2 cl u2 hsel
    unfold select_mystery_country at hsel
    split at hsel
    · simp at hsel
    · have h := selectLoop_some pool wb2 draws2 MAX_RETRIES 0 used c2 cl u2 hsel
      rcases h.1 with ⟨j, hcj, _, _, _⟩
      rw [hcj]
      exact fixBorders_borders_ne_nil (draws2 j)
  · simp [get_border_names]
  · decide

theorem island_sentinel_rendered_witness :
    (init_game (some [madagascarC]) wbW none drawsW initialSessionState).mystery_country =
      some (fixBorders madagascarC)
    ∧ (fixBorders madagascarC).borders = ["Island"]
    ∧ ((init_game (some [madagascarC]) wbW none drawsW initialSessionState).clues_list.get? 3 =
        some "Clue 4 (4 Points Points Potential): Neighbors: **It is an island country or surrounded by a single nation.**."
      ∧ (∀ c0 : Country, c0.borders = [] → (fixBorders c0).borders = ["Island"])
      ∧ (∀ pool wb2 draws2 used c2 cl u2,
          select_mystery_country pool wb2 draws2 used = (some (c2, cl), u2) →
          c2.borders ≠ [])
      ∧ get_border_names ["Island"] (some [("Mozambique", 31000000)]) = islandSentinel
      ∧ islandSentinel ≠ "") :=
  ⟨by decide, by decide,
   island_sentinel_rendered initialSessionState (some [madagascarC]) wbW none
     (some [("Mozambique", 31000000)]) drawsW (fixBorders madagascarC)
     (by decide) (by decide)⟩

/-- C10: a World-Bank record whose latitude or longitude is exactly 0 is
reported as `Unavailable` with absent coordinates (Python float truthiness:
`if not lat or not lon`), and the selector therefore never returns a country
whose World-Bank data carries a zero coordinate — present-but-zero
coordinates make a country ineligible exactly like missing ones. -/
theorem zero_coordinates_ineligible (d : WBData)
    (hd : d.latitude = 0 ∨ d.longitude = 0) :
    get_world_bank_clue (some d) =
      { location := "Unavailable", classification := "Unavailable", lat := none, lon := none }
    ∧ (∀ pool wb draws used c cl u2,
        select_mystery_country pool wb draws used = (some (c, cl), u2) →
        ∃ dd, wb (c.cca2.getD "XX") = some dd ∧ dd.latitude ≠ 0 ∧ dd.longitude ≠ 0) := by
  constructor
  · simp only [get_world_bank_clue]
    rw [if_pos hd]
  · intro pool wb draws used c cl u2 hsel
    unfold select_mystery_country at hsel
    split at hsel
    · simp at hsel
    · have h := selectLoop_some pool wb draws MAX_RETRIES 0 used c cl u2 hsel
      rcases h.1 with ⟨j, hcj, hcl, hlat, hlon⟩
      rw [hcj, fixBorders_cca2]
      cases hwb : wb ((draws j).cca2.getD "XX") with
      | none =>
        rw [hwb] at hcl
        rw [hcl] at hlat
        simp [get_world_bank_clue] at hlat
      | some dd =>
        refine ⟨dd, rfl, ?_, ?_⟩
        · intro h0
          rw [hwb] at hcl
          rw [hcl] at hlat
          simp [get_world_bank_clue, h0] at hlat
        · intro h0
          rw [hwb] at hcl
          rw [hcl] at hlat
          simp [get_world_bank_clue, h0] at hlat

theorem zero_coordinates_ineligible_witness :
    ((0 : ℚ) = 0 ∨ (13 : ℚ) = 0)
    ∧ (get_world_bank_clue (some { latitude := 0, longitude := 13, incomeLevel := "High income" }) =
        { location := "Unavailable", classification := "Unavailable", lat := none, lon := none }
      ∧ (∀ pool wb draws used c cl u2,
          select_mystery_country pool wb draws used = (some (c, cl), u2) →
          ∃ dd, wb (c.cca2.getD "XX") = some dd ∧ dd.latitude ≠ 0 ∧ dd.longitude ≠ 0)) :=
  ⟨Or.inl rfl,
   zero_coordinates_ineligible { latitude := 0, longitude := 13, incomeLevel := "High income" }
     (Or.inl rfl)⟩

/-- Round setup never touches the win flag and never sets the game-ended
flag: a data-fetch error during setup cannot produce a Won/Lost outcome. -/
theorem init_game_win_ended (raw : Option (List Country)) (wb : String → Option WBData)
    (bresp : Option (List (String × Nat))) (draws : Nat → Country) (s : SessionState) :
    (init_game raw wb bresp draws s).win = s.win
    ∧ ((init_game raw wb bresp draws s).game_ended = true → s.game_ended = true) := by
  simp only [init_game]
  split
  · exact ⟨rfl, fun h => h⟩
  · rcases hsel : select_mystery_country (fetch_all_countries raw) wb draws s.used_countries
      with ⟨res, u1⟩
    cases res with
    | none => exact ⟨rfl, fun h => h⟩
    | some p =>
      rcases p with ⟨c0, wbd⟩
      exact ⟨rfl, by simp⟩

/-- C8: every data-fetch failure is reported as a typed result — the border
lookup degrades to its placeholder string, the World-Bank lookup to the
`Unavailable` record, an unresolvable selection run to "no country" with the
used set untouched, and a failed catalog fetch to a round with no mystery
country while points, streaks, clue index, used set and the Won/Lost flags
all keep their values; and no data-fetch error alone can make a round
transition to Won or Lost, since round setup never writes the win flag and
never raises the game-ended flag. -/
theorem fetch_failure_typed_and_stateless (s : SessionState)
    (bc : List String) (hbc : bc ≠ ["Island"])
    (pool : List Country) (wb : String → Option WBData) (draws : Nat → Country)
    (used : List String) (hlt : used.length < pool.length)
    (hfail : ∀ j, ¬((get_world_bank_clue (wb ((draws j).cca2.getD "XX"))).lat.isSome = true
        ∧ (get_world_bank_clue (wb ((draws j).cca2.getD "XX"))).lon.isSome = true))
    (wb2 : String → Option WBData) (bresp2 : Option (List (String × Nat)))
    (draws2 : Nat → Country) :
    get_border_names bc none = "Border data unavailable."
    ∧ get_world_bank_clue none =
        { location := "Unavailable", classification := "Unavailable", lat := none, lon := none }
    ∧ select_mystery_country pool wb draws used = (none, used)
    ∧ (init_game none wb2 bresp2 draws2 s).accumulated_points = s.accumulated_points
    ∧ (init_game none wb2 bresp2 draws2 s).current_streak = s.current_streak
    ∧ (init_game none wb2 bresp2 draws2 s).last_streak = s.last_streak
    ∧ (init_game none wb2 bresp2 draws2 s).used_countries = s.used_countries
    ∧ (init_game none wb2 bresp2 draws2 s).clue_index = s.clue_index
    ∧ (init_game none wb2 bresp2 draws2 s).game_ended = s.game_ended
    ∧ (init_game none wb2 bresp2 draws2 s).win = s.win
    ∧ (init_game none wb2 bresp2 draws2 s).mystery_country = none
    ∧ (∀ raw wb3 bresp3 draws3 s3,
        (init_game raw wb3 bresp3 draws3 s3).win = s3.win
        ∧ ((init_game raw wb3 bresp3 draws3 s3).game_ended = true → s3.game_ended = true)) := by
  have hsel : select_mystery_country pool wb draws used = (none, used) := by
    unfold select_mystery_country
    have hpne : pool.isEmpty = false := by
      cases pool with
      | nil => simp at hlt
      | cons a l => rfl
    rw [if_neg (by simp [hpne] : ¬pool.isEmpty = true)]
    exact selectLoop_fail_keep pool wb draws hfail MAX_RETRIES 0 used hlt
  refine ⟨by simp [get_border_names, hbc], rfl, hsel, ?_, ?_, ?_, ?_, ?_, ?_, ?_, ?_,
    fun raw wb3 bresp3 draws3 s3 => init_game_win_ended raw wb3 bresp3 draws3 s3⟩
    <;> simp [init_game, fetch_all_countries]

theorem fetch_failure_typed_and_stateless_witness :
    (["BEL", "DEU"] : List String) ≠ ["Island"]
    ∧ ([] : List String).length < poolW.length
    ∧ (∀ j, ¬((get_world_bank_clue ((fun _ => (none : Option WBData)) ((drawsW j).cca2.getD "XX"))).lat.isSome = true
        ∧ (get_world_bank_clue ((fun _ => (none : Option WBData)) ((drawsW j).cca2.getD "XX"))).lon.isSome = true))
    ∧ (get_border_names ["BEL", "DEU"] none = "Border data unavailable."
      ∧ get_world_bank_clue none =
          { location := "Unavailable", classification := "Unavailable", lat := none, lon := none }
      ∧ select_mystery_country poolW (fun _ => none) drawsW [] = (none, [])
      ∧ (init_game none wbW none drawsW (midRound "x")).accumulated_points =
          (midRound "x").accumulated_points
      ∧ (init_game none wbW none drawsW (midRound "x")).current_streak =
          (midRound "x").current_streak
      ∧ (init_game none wbW none drawsW (midRound "x")).last_streak = (midRound "x").last_streak
      ∧ (init_game none wbW none drawsW (midRound "x")).used_countries =
          (midRound "x").used_countries
      ∧ (init_game none wbW none drawsW (midRound "x")).clue_index = (midRound "x").clue_index
      ∧ (init_game none wbW none drawsW (midRound "x")).game_ended = (midRound "x").game_ended
      ∧ (init_game none wbW none drawsW (midRound "x")).win = (midRound "x").win
      ∧ (init_game none wbW none drawsW (midRound "x")).mystery_country = none
      ∧ (∀ raw wb3 bresp3 draws3 s3,
          (init_game raw wb3 bresp3 draws3 s3).win = s3.win
          ∧ ((init_game raw wb3 bresp3 draws3 s3).game_ended = true → s3.game_ended = true))) :=
  ⟨by decide, by decide, fun _ => by simp [get_world_bank_clue],
   fetch_failure_typed_and_stateless (midRound "x") ["BEL", "DEU"] (by decide)
     poolW (fun _ => none) drawsW [] (by decide) (fun _ => by simp [get_world_bank_clue])
     wbW none drawsW⟩

set_option maxRecDepth 8000 in
/-- The spec's worked GuessEvaluator examples, evaluated on the embedded
match logic: exact hit, alias hit, one-typo fuzzy hit, and the short-guess
rejection. -/
theorem guess_evaluator_examples :
    guessMatches (normalize_text "United States") (normalize_text "United States") = true
    ∧ guessMatches (normalize_text "usa") (normalize_text "United States") = true
    ∧ guessMatches (normalize_text "Urited States") (normalize_text "United States") = true
    ∧ guessMatches (normalize_text "usx") (normalize_text "United States") = false := by
  refine ⟨?_, ?_, ?_, ?_⟩ <;> decide
